import Mathlib

/-!
Verification of the help-request email relay (`src/remote/lambda.py`).

The Python module is embedded shallowly:
* pure helpers (`make_message`, `get_payload`) become Lean functions;
* standard-library primitives whose behaviour the module relies on
  (`str.format`, `base64.b64decode`, `bytes.decode('utf-8')`, `int(...)`,
  `json.dumps`) are modelled as executable Lean functions following their
  documented semantics;
* external services (the KMS `decrypt` call, the SMTP session) and
  `json.loads` are oracle parameters, and every call to an external service
  is recorded in an event trace so that claims of the form "no transport
  call is attempted" are statements about the trace;
* Python exceptions become `Except PyErr` results.
-/

set_option maxRecDepth 4000

/-- Python exception kinds raised (directly or via the standard library) by
the code under `src/remote/lambda.py`. -/
inductive PyErr where
  | keyError (key : String)
  | valueError (msg : String)
  | typeError (msg : String)
  | jsonError (msg : String)
  | kmsError (msg : String)
  | smtpError (msg : String)
  | unicodeError (msg : String)
  | binasciiError (msg : String)
deriving Repr, DecidableEq

/-- JSON values as far as the handler observes them (the decoded request
body holds the three user-supplied fields; the module performs no type
coercion on them). -/
inductive JVal where
  | str (s : String)
  | num (n : Int)
  | null
deriving Repr, DecidableEq

/-- A decoded JSON object, as produced by `json.loads` on a request body. -/
abbrev JsonObj : Type := List (String × JVal)

/-- The open-brace character of Python format strings. -/
def lbrace : Char := '\x7b'

/-- The close-brace character of Python format strings. -/
def rbrace : Char := '\x7d'

/-- Model of Python `str.format` restricted to keyword substitution of
plain field names (no attribute access, indexing, `!conversion` or
`:format_spec`, none of which appear in `BODY_TEMPLATE`): a single
left-to-right pass over the template; `\x7b\x7b`/`\x7d\x7d` are literal
braces, `\x7bname\x7d` is replaced by `subst name` (a `KeyError` if the
keyword is missing), a stray brace is a `ValueError`.  Substituted values
are appended verbatim and never re-scanned. -/
def pyFormatChars (subst : String → Option String) : List Char → Except PyErr (List Char)
  | [] => .ok []
  | c :: rest =>
    if c = lbrace then
      match rest with
      | [] => .error (.valueError "Single '\x7b' encountered in format string")
      | c2 :: rest2 =>
        if c2 = lbrace then
          (pyFormatChars subst rest2).map (fun t => lbrace :: t)
        else
          match hd : (c2 :: rest2).dropWhile (fun ch => ch ≠ rbrace) with
          | [] => .error (.valueError "expected '\x7d' before end of string")
          | _ :: rest3 =>
            match subst (String.mk ((c2 :: rest2).takeWhile (fun ch => ch ≠ rbrace))) with
            | some v => (pyFormatChars subst rest3).map (fun t => v.data ++ t)
            | none =>
              .error (.keyError (String.mk ((c2 :: rest2).takeWhile (fun ch => ch ≠ rbrace))))
    else if c = rbrace then
      match rest with
      | [] => .error (.valueError "Single '\x7d' encountered in format string")
      | c2 :: rest2 =>
        if c2 = rbrace then
          (pyFormatChars subst rest2).map (fun t => rbrace :: t)
        else .error (.valueError "Single '\x7d' encountered in format string")
    else
      (pyFormatChars subst rest).map (fun t => c :: t)
termination_by l => l.length
decreasing_by
  all_goals simp
  all_goals try omega
  have hle : ∀ L : List Char,
      (L.dropWhile (fun ch => decide (ch ≠ rbrace))).length ≤ L.length := by
    intro L
    induction L with
    | nil => simp [List.dropWhile]
    | cons a t ih =>
      by_cases hpa : a = rbrace
      · rw [List.dropWhile_cons_of_neg (by simp [hpa])]
      · rw [List.dropWhile_cons_of_pos (by simp [hpa])]
        exact Nat.le_succ_of_le ih
  have hle2 := hle (c2 :: rest2)
  rw [hd] at hle2
  simp at hle2
  omega

instance {ε α : Type} [DecidableEq ε] [DecidableEq α] : DecidableEq (Except ε α)
  | .ok a, .ok b => if h : a = b then .isTrue (by rw [h]) else .isFalse (by simp [h])
  | .ok _, .error _ => .isFalse (by simp)
  | .error _, .ok _ => .isFalse (by simp)
  | .error e, .error f => if h : e = f then .isTrue (by rw [h]) else .isFalse (by simp [h])

/-- The fixed body template of the help-request email (module constant
`BODY_TEMPLATE`, `src/remote/lambda.py` lines 14-33). -/
def BODY_TEMPLATE : String :=
  "\nHello!\n\nA user has submitted a help request from the Montreal Policy Simulator.\n\nThanks,\nHelpBot\n\n\nUser email: \x7bemail\x7d\n\nDescription of issue:\n\x7bdescription\x7d\n\n----------------------------------------\nSimulation code:\n----------------------------------------\n\x7bsimulation\x7d\n----------------------------------------\n"

/-- The payload of one help request (class `Payload`): the three values read
from the decoded request body, stored without validation or coercion. -/
structure Payload where
  email : JVal
  description : JVal
  simulation : JVal
deriving Repr, DecidableEq

/-- `Payload.get_email`. -/
def Payload.get_email (p : Payload) : JVal := p.email

/-- `Payload.get_description`. -/
def Payload.get_description (p : Payload) : JVal := p.description

/-- `Payload.get_simulation`. -/
def Payload.get_simulation (p : Payload) : JVal := p.simulation

/-- The resolved transport configuration (class `Config`).  `smtp_port` is an
`Int` because `get_config_from_env` builds it with Python `int(...)`; the
remaining fields are the decrypted plaintext strings. -/
structure Config where
  smtp_host : String
  smtp_port : Int
  smtp_user : String
  smtp_pass : String
  destination : String
deriving Repr, DecidableEq

/-- `Config.get_smtp_host`. -/
def Config.get_smtp_host (c : Config) : String := c.smtp_host

/-- `Config.get_smtp_port`. -/
def Config.get_smtp_port (c : Config) : Int := c.smtp_port

/-- `Config.get_smtp_user`. -/
def Config.get_smtp_user (c : Config) : String := c.smtp_user

/-- `Config.get_smtp_pass`. -/
def Config.get_smtp_pass (c : Config) : String := c.smtp_pass

/-- `Config.get_destination`. -/
def Config.get_destination (c : Config) : String := c.destination

/-- The composed mail message: the `MIMEMultipart` envelope built by
`make_message` (`From`/`To`/`Subject` headers) together with the single
plaintext part attached to it. -/
structure Message where
  fromHeader : String
  toHeader : String
  subject : String
  bodyText : String
deriving Repr, DecidableEq

/-- How Python `str.format` renders a substituted value (`format(v, '')`):
strings are inserted unchanged, ints in decimal, `None` as `"None"`. -/
def pyFormatArg : JVal → String
  | .str s => s
  | .num n => toString n
  | .null => "None"

/-- The keyword-argument map of the `BODY_TEMPLATE.format(...)` call in
`make_message` (`email=sender, description=description,
simulation=simulation`). -/
def fmtSubst (payload : Payload) : String → Option String := fun n =>
  if n = "email" then some (pyFormatArg payload.get_email)
  else if n = "description" then some (pyFormatArg payload.get_description)
  else if n = "simulation" then some (pyFormatArg payload.get_simulation)
  else none

/-- `make_message` (`src/remote/lambda.py` lines 156-185): build the mail
envelope from the configuration, render `BODY_TEMPLATE` with the payload
fields, and attach the result as the plaintext part. -/
def make_message (payload : Payload) (config : Config) : Except PyErr Message :=
  (pyFormatChars (fmtSubst payload) BODY_TEMPLATE.data).map fun bodyChars =>
    { fromHeader := config.get_smtp_user
      toHeader := config.get_destination
      subject := "MPS Help Request"
      bodyText := String.mk bodyChars }

/-- The literal text of `BODY_TEMPLATE` before the `email` field. -/
def seg1 : String := "\nHello!\n\nA user has submitted a help request from the Montreal Policy Simulator.\n\nThanks,\nHelpBot\n\n\nUser email: "

/-- The literal text of `BODY_TEMPLATE` between the `email` and
`description` fields. -/
def seg2 : String := "\n\nDescription of issue:\n"

/-- The literal text of `BODY_TEMPLATE` between the `description` and
`simulation` fields. -/
def seg3 : String := "\n\n----------------------------------------\nSimulation code:\n----------------------------------------\n"

/-- The literal text of `BODY_TEMPLATE` after the `simulation` field. -/
def seg4 : String := "\n----------------------------------------\n"

/-- Python dict lookup `data[k]`: the first binding for `k`, or a
`KeyError`. -/
def dictGet (data : JsonObj) (k : String) : Except PyErr JVal :=
  match List.lookup k data with
  | some v => .ok v
  | none => .error (.keyError k)

/-- `get_payload` (`src/remote/lambda.py` lines 188-198): read the three
required keys from the decoded body, failing with a `KeyError` on the first
missing one, and build the `Payload`. -/
def get_payload (data : JsonObj) : Except PyErr Payload :=
  match dictGet data "email" with
  | .error e => .error e
  | .ok sender =>
    match dictGet data "description" with
    | .error e => .error e
    | .ok description =>
      match dictGet data "simulation" with
      | .error e => .error e
      | .ok simulation => .ok (Payload.mk sender description simulation)

/-- The 6-bit value of a base64 alphabet character. -/
def b64CharVal (c : Char) : Option Nat :=
  if 'A' ≤ c ∧ c ≤ 'Z' then some (c.toNat - 65)
  else if 'a' ≤ c ∧ c ≤ 'z' then some (c.toNat - 71)
  else if '0' ≤ c ∧ c ≤ '9' then some (c.toNat + 4)
  else if c = '+' then some 62
  else if c = '/' then some 63
  else none

/-- Characters `base64.b64decode` keeps (alphabet and padding); all others
are discarded before decoding (`validate=False`, the module's call). -/
def b64IsKept (c : Char) : Bool := (b64CharVal c).isSome || c = '='

/-- Decode a run of base64 quads into bytes; padding (`=`) is accepted only
at the end, and a trailing group shorter than four characters is an
`Incorrect padding` error — the behaviour of `binascii` on the characters
kept by `b64IsKept`. -/
def b64Quads : List Char → Except PyErr (List Nat)
  | [] => .ok []
  | c1 :: c2 :: c3 :: c4 :: rest =>
    match b64CharVal c1, b64CharVal c2 with
    | some v1, some v2 =>
      if c3 = '=' then
        if c4 = '=' ∧ rest = [] then .ok [v1 * 4 + v2 / 16]
        else .error (.binasciiError "Invalid padding")
      else
        match b64CharVal c3 with
        | some v3 =>
          if c4 = '=' then
            if rest = [] then .ok [v1 * 4 + v2 / 16, v2 % 16 * 16 + v3 / 4]
            else .error (.binasciiError "Invalid padding")
          else
            match b64CharVal c4 with
            | some v4 =>
              (b64Quads rest).map
                (fun bs => (v1 * 4 + v2 / 16) :: (v2 % 16 * 16 + v3 / 4) :: (v3 % 4 * 64 + v4) :: bs)
            | none => .error (.binasciiError "Invalid padding")
        | none => .error (.binasciiError "Invalid padding")
    | _, _ => .error (.binasciiError "Invalid padding")
  | _ => .error (.binasciiError "Incorrect padding")

/-- Model of `base64.b64decode` as called by `get_env_var_decrypt`
(no `altchars`, `validate=False`): discard foreign characters, then decode
the remaining quads. -/
def b64decode (s : String) : Except PyErr (List Nat) :=
  b64Quads (s.data.filter b64IsKept)

/-- Model of `bytes.decode('utf-8')`: standard UTF-8 with the checks CPython
applies (continuation ranges, no overlong forms, no surrogates, max
U+10FFFF); `none` marks a `UnicodeDecodeError`. -/
def utf8DecodeChars : List Nat → Option (List Char)
  | [] => some []
  | b :: rest =>
    if b < 128 then (utf8DecodeChars rest).map (fun t => Char.ofNat b :: t)
    else if 194 ≤ b ∧ b ≤ 223 then
      match rest with
      | b2 :: rest2 =>
        if 128 ≤ b2 ∧ b2 ≤ 191 then
          (utf8DecodeChars rest2).map (fun t => Char.ofNat ((b - 192) * 64 + (b2 - 128)) :: t)
        else none
      | [] => none
    else if 224 ≤ b ∧ b ≤ 239 then
      match rest with
      | b2 :: b3 :: rest2 =>
        if ((if b = 224 then 160 else 128) ≤ b2 ∧
              b2 ≤ (if b = 237 then 159 else 191)) ∧ (128 ≤ b3 ∧ b3 ≤ 191) then
          (utf8DecodeChars rest2).map
            (fun t => Char.ofNat ((b - 224) * 4096 + (b2 - 128) * 64 + (b3 - 128)) :: t)
        else none
      | _ => none
    else if 240 ≤ b ∧ b ≤ 244 then
      match rest with
      | b2 :: b3 :: b4 :: rest2 =>
        if ((if b = 240 then 144 else 128) ≤ b2 ∧
              b2 ≤ (if b = 244 then 143 else 191)) ∧
            (128 ≤ b3 ∧ b3 ≤ 191) ∧ (128 ≤ b4 ∧ b4 ≤ 191) then
          (utf8DecodeChars rest2).map
            (fun t => Char.ofNat
              ((b - 240) * 262144 + (b2 - 128) * 4096 + (b3 - 128) * 64 + (b4 - 128)) :: t)
        else none
      | _ => none
    else none

/-- `bytes.decode('utf-8')` as an `Except` result. -/
def utf8Decode (bs : List Nat) : Except PyErr String :=
  match utf8DecodeChars bs with
  | some cs => .ok (String.mk cs)
  | none => .error (.unicodeError "invalid utf-8")

/-- Python ASCII whitespace stripped by `int(str)`. -/
def isPySpace (c : Char) : Bool :=
  c = ' ' || c = '\t' || c = '\n' || c = '\x0d' || c = '\x0b' || c = '\x0c'

/-- Digits of a Python integer literal after the sign: one or more decimal
digits with single underscores allowed between digits. -/
def pyIntDigits (acc : Nat) : List Char → Option Nat
  | [] => some acc
  | c :: rest =>
    if c.isDigit then pyIntDigits (acc * 10 + (c.toNat - 48)) rest
    else if c = '_' then
      match rest with
      | c2 :: rest2 =>
        if c2.isDigit then pyIntDigits (acc * 10 + (c2.toNat - 48)) rest2 else none
      | [] => none
    else none

/-- Digit run of a Python integer literal: must start with a digit. -/
def pyIntBody : List Char → Option Nat
  | [] => none
  | c :: rest => if c.isDigit then pyIntDigits (c.toNat - 48) rest else none

/-- Model of Python `int(str)` (base 10): strip surrounding whitespace,
accept an optional sign followed by digits (with `_` separators), otherwise
raise `ValueError`. -/
def pyInt (s : String) : Except PyErr Int :=
  let core := ((s.data.dropWhile isPySpace).reverse.dropWhile isPySpace).reverse
  let signed : Option Int :=
    match core with
    | '+' :: rest => (pyIntBody rest).map (fun n => (n : Int))
    | '-' :: rest => (pyIntBody rest).map (fun n => -(n : Int))
    | rest => (pyIntBody rest).map (fun n => (n : Int))
  match signed with
  | some n => .ok n
  | none => .error (.valueError ("invalid literal for int() with base 10: " ++ s))

/-- The process environment: a partial map from variable names to raw
values (`os.environ`). -/
def EnvMap : Type := String → Option String

/-- The KMS `decrypt` operation (`boto3.client('kms').decrypt`), an external
service: ciphertext bytes and encryption context in, plaintext bytes out,
or a decryption failure. -/
def KmsOracle : Type := List Nat → List (String × String) → Except PyErr (List Nat)

/-- Observable calls to external services, in order of occurrence.
`smtpConnect` records the `smtplib.SMTP(host, port)` constructor call;
`smtpClose` the release performed by leaving the `with` block. -/
inductive Ev where
  | kmsDecrypt (ciphertext : List Nat) (context : List (String × String))
  | smtpConnect (host : String) (port : Int)
  | smtpStarttls
  | smtpLogin (user pass : String)
  | smtpSendMsg
  | smtpClose
deriving Repr, DecidableEq

/-- `get_env_var_decrypt` (`src/remote/lambda.py` lines 137-153): read the
raw environment value (a `KeyError` if absent), base64-decode it, call KMS
`decrypt` with an encryption context binding the ciphertext to the function
name from `AWS_LAMBDA_FUNCTION_NAME`, and UTF-8-decode the plaintext. -/
def get_env_var_decrypt (env : EnvMap) (kms : KmsOracle) (name : String) :
    Except PyErr String × List Ev :=
  match env name with
  | none => (.error (.keyError name), [])
  | some encrypted =>
    match b64decode encrypted with
    | .error e => (.error e, [])
    | .ok blob =>
      match env "AWS_LAMBDA_FUNCTION_NAME" with
      | none => (.error (.keyError "AWS_LAMBDA_FUNCTION_NAME"), [])
      | some fname =>
        match kms blob [("LambdaFunctionName", fname)] with
        | .error e => (.error e, [.kmsDecrypt blob [("LambdaFunctionName", fname)]])
        | .ok plaintext =>
          (utf8Decode plaintext, [.kmsDecrypt blob [("LambdaFunctionName", fname)]])

/-- `get_config_from_env` (`src/remote/lambda.py` lines 201-214): decrypt
the five configuration variables in order, converting `SMTP_PORT` with
`int(...)`, and build the `Config`. -/
def get_config_from_env (env : EnvMap) (kms : KmsOracle) : Except PyErr Config × List Ev :=
  match get_env_var_decrypt env kms "SMTP_HOST" with
  | (.error e, ev1) => (.error e, ev1)
  | (.ok smtp_host, ev1) =>
    match get_env_var_decrypt env kms "SMTP_PORT" with
    | (.error e, ev2) => (.error e, ev1 ++ ev2)
    | (.ok portText, ev2) =>
      match pyInt portText with
      | .error e => (.error e, ev1 ++ ev2)
      | .ok smtp_port =>
        match get_env_var_decrypt env kms "SMTP_USER" with
        | (.error e, ev3) => (.error e, ev1 ++ ev2 ++ ev3)
        | (.ok smtp_user, ev3) =>
          match get_env_var_decrypt env kms "SMTP_PASSWORD" with
          | (.error e, ev4) => (.error e, ev1 ++ ev2 ++ ev3 ++ ev4)
          | (.ok smtp_pass, ev4) =>
            match get_env_var_decrypt env kms "DESTINATION" with
            | (.error e, ev5) => (.error e, ev1 ++ ev2 ++ ev3 ++ ev4 ++ ev5)
            | (.ok destination, ev5) =>
              (.ok (Config.mk smtp_host smtp_port smtp_user smtp_pass destination),
                ev1 ++ ev2 ++ ev3 ++ ev4 ++ ev5)

/-- The SMTP server as an external service: the outcome of each session
step, as a function of the arguments the code passes it. -/
structure SmtpOracle where
  connect : String → Int → Except PyErr Unit
  starttls : Except PyErr Unit
  login : String → String → Except PyErr Unit
  send : Message → Except PyErr Unit

/-- `send_message` (`src/remote/lambda.py` lines 217-228): inside
`with smtplib.SMTP(host, port)`, upgrade to TLS, authenticate, and transmit.
The constructor connects; if it fails no session exists and nothing is
released.  Once it succeeds the `with` block guarantees one `smtpClose` on
every exit path, whether the body's steps succeed or fail. -/
def send_message (o : SmtpOracle) (message : Message) (config : Config) :
    Except PyErr Unit × List Ev :=
  match o.connect config.get_smtp_host config.get_smtp_port with
  | .error e => (.error e, [])
  | .ok _ =>
    let body : Except PyErr Unit × List Ev :=
      match o.starttls with
      | .error e => (.error e, [.smtpStarttls])
      | .ok _ =>
        match o.login config.get_smtp_user config.get_smtp_pass with
        | .error e => (.error e, [.smtpStarttls, .smtpLogin config.get_smtp_user config.get_smtp_pass])
        | .ok _ =>
          match o.send message with
          | .error e =>
            (.error e, [.smtpStarttls, .smtpLogin config.get_smtp_user config.get_smtp_pass,
              .smtpSendMsg])
          | .ok _ =>
            (.ok (), [.smtpStarttls, .smtpLogin config.get_smtp_user config.get_smtp_pass,
              .smtpSendMsg])
    (body.1, .smtpConnect config.get_smtp_host config.get_smtp_port :: body.2 ++ [.smtpClose])

/-- The Lambda event as far as the handler reads it: `event.get('body', ...)`
is the only access, so only the optional `body` field is modelled. -/
structure Event where
  body : Option String

/-- The handler's HTTP-style response object. -/
structure Response where
  statusCode : Nat
  headers : List (String × String)
  body : String
deriving Repr, DecidableEq

/-- `json.loads` as an external decode oracle: the claims quantify over its
result, so its parsing algorithm is left unspecified.  Bodies that decode
to a non-object raise before any key is read; that failure is folded into
the oracle's error case. -/
def JsonLoads : Type := String → Except PyErr JsonObj

/-- A hexadecimal digit as `json.dumps` prints it (lowercase). -/
def hexDigitChar (n : Nat) : Char :=
  if n < 10 then Char.ofNat (48 + n) else Char.ofNat (87 + n)

/-- Four hex digits of a `\uXXXX` escape. -/
def hex4 (n : Nat) : List Char :=
  [hexDigitChar (n / 4096 % 16), hexDigitChar (n / 256 % 16),
    hexDigitChar (n / 16 % 16), hexDigitChar (n % 16)]

/-- How `json.dumps` (defaults: `ensure_ascii=True`) renders one character
of a string. -/
def jsonEscapeChar (c : Char) : List Char :=
  if c = '"' then ['\\', '"']
  else if c = '\\' then ['\\', '\\']
  else if c = '\n' then ['\\', 'n']
  else if c = '\t' then ['\\', 't']
  else if c = '\x0d' then ['\\', 'r']
  else if c = '\x08' then ['\\', 'b']
  else if c = '\x0c' then ['\\', 'f']
  else if c.toNat < 32 then '\\' :: 'u' :: hex4 c.toNat
  else if c.toNat < 128 then [c]
  else if c.toNat < 65536 then '\\' :: 'u' :: hex4 c.toNat
  else
    ('\\' :: 'u' :: hex4 (55296 + (c.toNat - 65536) / 1024)) ++
      ('\\' :: 'u' :: hex4 (56320 + (c.toNat - 65536) % 1024))

/-- `json.dumps` on a string. -/
def pyJsonDumpsStr (s : String) : String :=
  String.mk ('"' :: (s.data.map jsonEscapeChar).flatten ++ ['"'])

/-- `json.dumps` on the single-key object the handler returns
(`json.dumps(\x7b'message': text\x7d)`, default separators). -/
def pyJsonDumpsMessage (text : String) : String :=
  "\x7b" ++ pyJsonDumpsStr "message" ++ ": " ++ pyJsonDumpsStr text ++ "\x7d"

/-- `lambda_handler` (`src/remote/lambda.py` lines 231-259): decode the body
(defaulting to the empty JSON object), build the payload, resolve the
configuration, compose the message, send it, and return the success
response.  There is no exception handler: any stage's failure propagates.
The second component is the trace of external-service calls made. -/
def lambda_handler (jsonLoads : JsonLoads) (env : EnvMap) (kms : KmsOracle)
    (smtp : SmtpOracle) (event : Event) : Except PyErr Response × List Ev :=
  match jsonLoads (event.body.getD "\x7b\x7d") with
  | .error e => (.error e, [])
  | .ok data =>
    match get_payload data with
    | .error e => (.error e, [])
    | .ok payload =>
      match get_config_from_env env kms with
      | (.error e, evC) => (.error e, evC)
      | (.ok config, evC) =>
        match make_message payload config with
        | .error e => (.error e, evC)
        | .ok message =>
          match send_message smtp message config with
          | (.error e, evS) => (.error e, evC ++ evS)
          | (.ok _, evS) =>
            (.ok { statusCode := 200
                   headers := [("Content-Type", "application/json"),
                     ("Access-Control-Allow-Origin", "*")]
                   body := pyJsonDumpsMessage "Success" }, evC ++ evS)

/-- The message `make_message` composes from a payload and a
configuration. -/
def composedMessage (p : Payload) (c : Config) : Message :=
  { fromHeader := c.get_smtp_user
    toHeader := c.get_destination
    subject := "MPS Help Request"
    bodyText := String.mk (seg1.data ++ (pyFormatArg p.get_email).data ++ seg2.data ++
      (pyFormatArg p.get_description).data ++ seg3.data ++
      (pyFormatArg p.get_simulation).data ++ seg4.data) }

/-- Concrete encryption context used by the witness environment. -/
def ctxW : List (String × String) := [("LambdaFunctionName", "montrealHelp")]

/-- A concrete environment: base64 ciphertexts for the five configuration
variables plus the function name. -/
def envW : EnvMap := fun n =>
  if n = "SMTP_HOST" then some "c210cC5leGFtcGxlLmNvbQ=="
  else if n = "SMTP_PORT" then some "NTg3"
  else if n = "SMTP_USER" then some "aGVscGVy"
  else if n = "SMTP_PASSWORD" then some "aHVudGVyMg=="
  else if n = "DESTINATION" then some "aGVscEBleGFtcGxlLmNvbQ=="
  else if n = "AWS_LAMBDA_FUNCTION_NAME" then some "montrealHelp"
  else none

/-- A concrete decryption oracle (identity on the ciphertext bytes). -/
def kmsW : KmsOracle := fun blob _ => .ok blob

/-- A concrete SMTP server on which every step succeeds. -/
def smtpW : SmtpOracle :=
  { connect := fun _ _ => .ok (), starttls := .ok (), login := fun _ _ => .ok (),
    send := fun _ => .ok () }

/-- The configuration `envW`/`kmsW` resolve to. -/
def configW : Config :=
  { smtp_host := "smtp.example.com", smtp_port := 587, smtp_user := "helper",
    smtp_pass := "hunter2", destination := "help@example.com" }

/-- The KMS trace of resolving `envW`/`kmsW`. -/
def evCW : List Ev :=
  [.kmsDecrypt ("smtp.example.com".data.map Char.toNat) ctxW,
   .kmsDecrypt ("587".data.map Char.toNat) ctxW,
   .kmsDecrypt ("helper".data.map Char.toNat) ctxW,
   .kmsDecrypt ("hunter2".data.map Char.toNat) ctxW,
   .kmsDecrypt ("help@example.com".data.map Char.toNat) ctxW]

/-- A concrete valid request body (end-to-end scenario of the spec). -/
def bodyW : String :=
  "\x7b\"email\": \"u@x.com\", \"description\": \"broke\", \"simulation\": \"sim123\"\x7d"

/-- A second valid request body, differing from `bodyW` in all fields. -/
def bodyW2 : String :=
  "\x7b\"email\": \"w@x.com\", \"description\": \"slow\", \"simulation\": \"sim999\"\x7d"

/-- The decoded object of `bodyW`. -/
def dataW : JsonObj :=
  [("email", .str "u@x.com"), ("description", .str "broke"), ("simulation", .str "sim123")]

/-- The decoded object of `bodyW2`. -/
def dataW2 : JsonObj :=
  [("email", .str "w@x.com"), ("description", .str "slow"), ("simulation", .str "sim999")]

/-- A concrete decode oracle behaving like `json.loads` on the bodies the
witnesses use. -/
def jlW : JsonLoads := fun s =>
  if s = bodyW then .ok dataW
  else if s = bodyW2 then .ok dataW2
  else if s = "\x7b\x7d" then .ok []
  else .error (.jsonError "Expecting value")

/-- A decode oracle that always fails. -/
def jlFailW : JsonLoads := fun _ => .error (.jsonError "Expecting value")

/-- The payload of `dataW`. -/
def payloadW : Payload :=
  { email := .str "u@x.com", description := .str "broke", simulation := .str "sim123" }

/-- The payload of `dataW2`. -/
def payloadW2 : Payload :=
  { email := .str "w@x.com", description := .str "slow", simulation := .str "sim999" }

/-- The message composed from `payloadW` under `configW`. -/
def messageW : Message := composedMessage payloadW configW

/-- The SMTP trace of a fully successful send under `configW`. -/
def evSW : List Ev :=
  [.smtpConnect "smtp.example.com" 587, .smtpStarttls, .smtpLogin "helper" "hunter2",
   .smtpSendMsg, .smtpClose]

/-- `envW` with `SMTP_PORT` decrypting to the non-numeric string `nope`. -/
def envBadPortW : EnvMap := fun n =>
  if n = "SMTP_PORT" then some "bm9wZQ==" else envW n

/-- Scanner step for a non-brace character. -/
theorem pyFormatChars_cons_plain (subst : String → Option String) (c : Char) (l : List Char)
    (h1 : c ≠ lbrace) (h2 : c ≠ rbrace) :
    pyFormatChars subst (c :: l) = (pyFormatChars subst l).map (fun t => c :: t) := by
  rw [pyFormatChars.eq_def]
  dsimp only
  rw [if_neg h1, if_neg h2]

/-- A brace-free prefix of the template passes through the scanner
unchanged. -/
theorem pyFormatChars_plain_run (subst : String → Option String) (l1 l2 : List Char)
    (h : ∀ c ∈ l1, c ≠ lbrace ∧ c ≠ rbrace) :
    pyFormatChars subst (l1 ++ l2) = (pyFormatChars subst l2).map (fun t => l1 ++ t) := by
  induction l1 with
  | nil =>
    simp only [List.nil_append]
    cases pyFormatChars subst l2 <;> simp [Except.map]
  | cons c cs ih =>
    have hc := h c (List.mem_cons_self c cs)
    have hcs : ∀ x ∈ cs, x ≠ lbrace ∧ x ≠ rbrace := fun x hx => h x (List.mem_cons_of_mem c hx)
    rw [List.cons_append, pyFormatChars_cons_plain subst c _ hc.1 hc.2, ih hcs]
    cases pyFormatChars subst l2 <;> simp [Except.map]

/-- A brace-free suffix of the template is emitted unchanged. -/
theorem pyFormatChars_plain (subst : String → Option String) (l : List Char)
    (h : ∀ c ∈ l, c ≠ lbrace ∧ c ≠ rbrace) :
    pyFormatChars subst l = .ok l := by
  induction l with
  | nil => rw [pyFormatChars]
  | cons c cs ih =>
    have hc := h c (List.mem_cons_self c cs)
    rw [pyFormatChars_cons_plain subst c _ hc.1 hc.2,
      ih (fun x hx => h x (List.mem_cons_of_mem c hx))]
    rfl

/-- `takeWhile` walks past a prefix whose elements all satisfy the
predicate. -/
theorem takeWhile_prefix_all {α : Type} (p : α → Bool) (l1 l2 : List α)
    (h : ∀ c ∈ l1, p c = true) :
    (l1 ++ l2).takeWhile p = l1 ++ l2.takeWhile p := by
  induction l1 with
  | nil => simp
  | cons a l ih =>
    rw [List.cons_append, List.takeWhile_cons_of_pos (h a (List.mem_cons_self a l)),
      ih (fun x hx => h x (List.mem_cons_of_mem a hx)), List.cons_append]

/-- `dropWhile` drops a prefix whose elements all satisfy the predicate. -/
theorem dropWhile_prefix_all {α : Type} (p : α → Bool) (l1 l2 : List α)
    (h : ∀ c ∈ l1, p c = true) :
    (l1 ++ l2).dropWhile p = l2.dropWhile p := by
  induction l1 with
  | nil => simp
  | cons a l ih =>
    rw [List.cons_append, List.dropWhile_cons_of_pos (h a (List.mem_cons_self a l)),
      ih (fun x hx => h x (List.mem_cons_of_mem a hx))]

/-- Scanner step for a replacement field `\x7bname\x7d` whose keyword is
present: the substituted value is appended verbatim — it is never
re-scanned — and scanning resumes after the closing brace. -/
theorem pyFormatChars_field (subst : String → Option String) (name v : String)
    (n : Char) (ns l : List Char)
    (hcons : name.data = n :: ns)
    (hname : ∀ c ∈ name.data, c ≠ lbrace ∧ c ≠ rbrace)
    (hv : subst name = some v) :
    pyFormatChars subst (lbrace :: (name.data ++ rbrace :: l)) =
      (pyFormatChars subst l).map (fun t => v.data ++ t) := by
  have hpred : ∀ c ∈ name.data, (fun ch => decide (ch ≠ rbrace)) c = true := by
    intro c hc
    simp [(hname c hc).2]
  have htake : (name.data ++ rbrace :: l).takeWhile (fun ch => ch ≠ rbrace) = name.data := by
    rw [takeWhile_prefix_all _ _ _ hpred, List.takeWhile_cons_of_neg (by simp), List.append_nil]
  have hdrop : (name.data ++ rbrace :: l).dropWhile (fun ch => ch ≠ rbrace) = rbrace :: l := by
    rw [dropWhile_prefix_all _ _ _ hpred, List.dropWhile_cons_of_neg (by simp)]
  have hn := hname n (by rw [hcons]; exact List.mem_cons_self n ns)
  rw [hcons] at htake hdrop ⊢
  rw [pyFormatChars.eq_def]
  dsimp only
  rw [if_pos rfl]
  split
  · rename_i heq
    exact absurd heq (by simp)
  · rename_i c2 rest2 heq
    have hc2 : c2 = n := by
      have := congrArg (fun t => t.headD n) heq
      simpa using this.symm
    have hrest2 : rest2 = ns ++ rbrace :: l := by
      have := congrArg List.tail heq
      simpa using this.symm
    subst hc2
    subst hrest2
    rw [if_neg hn.1]
    split
    · rename_i heq2
      rw [← List.cons_append, hdrop] at heq2
      exact absurd heq2 (by simp)
    · rename_i x rest3 heq2
      rw [← List.cons_append, hdrop] at heq2
      have hrest3 : rest3 = l := by
        have := congrArg List.tail heq2
        simpa using this.symm
      subst hrest3
      rw [← List.cons_append, htake, ← hcons]
      rw [show (String.mk name.data : String) = name from rfl, hv]

/-- `BODY_TEMPLATE` is the four literal segments around its three
replacement fields, in order. -/
theorem BODY_TEMPLATE_decomp :
    BODY_TEMPLATE.data =
      seg1.data ++ lbrace :: ("email".data ++ rbrace ::
        (seg2.data ++ lbrace :: ("description".data ++ rbrace ::
          (seg3.data ++ lbrace :: ("simulation".data ++ rbrace :: seg4.data))))) := by
  decide

/-- None of the literal segments of `BODY_TEMPLATE` contains a brace. -/
theorem seg1_no_brace : ∀ c ∈ seg1.data, c ≠ lbrace ∧ c ≠ rbrace := by decide

/-- None of the literal segments of `BODY_TEMPLATE` contains a brace. -/
theorem seg2_no_brace : ∀ c ∈ seg2.data, c ≠ lbrace ∧ c ≠ rbrace := by decide

/-- None of the literal segments of `BODY_TEMPLATE` contains a brace. -/
theorem seg3_no_brace : ∀ c ∈ seg3.data, c ≠ lbrace ∧ c ≠ rbrace := by decide

/-- None of the literal segments of `BODY_TEMPLATE` contains a brace. -/
theorem seg4_no_brace : ∀ c ∈ seg4.data, c ≠ lbrace ∧ c ≠ rbrace := by decide

/-- The format call of `make_message` maps `email` to the payload's email
field. -/
theorem fmtSubst_email (p : Payload) :
    fmtSubst p "email" = some (pyFormatArg p.get_email) := by
  unfold fmtSubst
  rw [if_pos rfl]

/-- The format call of `make_message` maps `description` to the payload's
description field. -/
theorem fmtSubst_description (p : Payload) :
    fmtSubst p "description" = some (pyFormatArg p.get_description) := by
  unfold fmtSubst
  rw [if_neg (by decide), if_pos rfl]

/-- The format call of `make_message` maps `simulation` to the payload's
simulation field. -/
theorem fmtSubst_simulation (p : Payload) :
    fmtSubst p "simulation" = some (pyFormatArg p.get_simulation) := by
  unfold fmtSubst
  rw [if_neg (by decide), if_neg (by decide), if_pos rfl]

/-- Rendering `BODY_TEMPLATE` with any payload succeeds and interleaves the
literal segments with the three rendered payload fields. -/
theorem formatBody_eq (p : Payload) :
    pyFormatChars (fmtSubst p) BODY_TEMPLATE.data =
      .ok (seg1.data ++ (pyFormatArg p.get_email).data ++ seg2.data ++
        (pyFormatArg p.get_description).data ++ seg3.data ++
        (pyFormatArg p.get_simulation).data ++ seg4.data) := by
  rw [BODY_TEMPLATE_decomp]
  rw [pyFormatChars_plain_run _ _ _ seg1_no_brace]
  rw [pyFormatChars_field _ "email" _ 'e' "mail".data _ (by decide) (by decide)
    (fmtSubst_email p)]
  rw [pyFormatChars_plain_run _ _ _ seg2_no_brace]
  rw [pyFormatChars_field _ "description" _ 'd' "escription".data _ (by decide) (by decide)
    (fmtSubst_description p)]
  rw [pyFormatChars_plain_run _ _ _ seg3_no_brace]
  rw [pyFormatChars_field _ "simulation" _ 's' "imulation".data _ (by decide) (by decide)
    (fmtSubst_simulation p)]
  rw [pyFormatChars_plain _ _ seg4_no_brace]
  simp [Except.map, List.append_assoc]

/-- C1: for every payload of three strings, the body composed by
`make_message` is exactly `BODY_TEMPLATE` with the three named placeholders
replaced by the payload's fields verbatim (see `BODY_TEMPLATE_decomp`: the
four segments are the template's literal text), and — since `e`, `d`, `s`
range over all strings, including ones containing braces or
placeholder-like fragments — the substituted text is never re-interpreted
as template syntax. -/
theorem c1_make_message_body_verbatim (e d s : String) (config : Config) :
    ∃ m, make_message (Payload.mk (.str e) (.str d) (.str s)) config = .ok m ∧
      m.bodyText = seg1 ++ e ++ seg2 ++ d ++ seg3 ++ s ++ seg4 := by
  have h := formatBody_eq (Payload.mk (.str e) (.str d) (.str s))
  refine ⟨{ fromHeader := config.get_smtp_user
            toHeader := config.get_destination
            subject := "MPS Help Request"
            bodyText := String.mk (seg1.data ++ e.data ++ seg2.data ++ d.data ++
              seg3.data ++ s.data ++ seg4.data) }, ?_, ?_⟩
  · unfold make_message
    rw [h]
    rfl
  · have hdata : (seg1 ++ e ++ seg2 ++ d ++ seg3 ++ s ++ seg4).data =
        seg1.data ++ e.data ++ seg2.data ++ d.data ++ seg3.data ++ s.data ++ seg4.data := by
      simp [String.data_append, List.append_assoc]
    rw [← hdata]

/-- C6: for every payload and configuration, `make_message` succeeds and the
envelope's `From` is the resolved SMTP user, `To` the resolved destination,
and `Subject` the configured subject string `MPS Help Request`. -/
theorem c6_envelope_matches_config (payload : Payload) (config : Config) :
    ∃ m, make_message payload config = .ok m ∧
      m.fromHeader = config.get_smtp_user ∧
      m.toHeader = config.get_destination ∧
      m.subject = "MPS Help Request" := by
  refine ⟨{ fromHeader := config.get_smtp_user
            toHeader := config.get_destination
            subject := "MPS Help Request"
            bodyText := String.mk (seg1.data ++ (pyFormatArg payload.get_email).data ++
              seg2.data ++ (pyFormatArg payload.get_description).data ++
              seg3.data ++ (pyFormatArg payload.get_simulation).data ++ seg4.data) },
    ?_, rfl, rfl, rfl⟩
  unfold make_message
  rw [formatBody_eq payload]
  rfl

/-- C2: when the decoded body (the empty object when the event has no
`body`) is missing a required key, `get_payload` fails with a `KeyError`
for that key, the handler propagates exactly that error, and the empty
trace shows that no configuration was resolved (no KMS call) and no
transport call was attempted; no message is composed since the handler
stops at `get_payload`. -/
theorem c2_missing_key_short_circuits (jsonLoads : JsonLoads) (env : EnvMap)
    (kms : KmsOracle) (smtp : SmtpOracle) (event : Event) (data : JsonObj)
    (hdec : jsonLoads (event.body.getD "\x7b\x7d") = .ok data)
    (hmiss : List.lookup "email" data = none ∨ List.lookup "description" data = none ∨
      List.lookup "simulation" data = none) :
    ∃ k, (k = "email" ∨ k = "description" ∨ k = "simulation") ∧
      List.lookup k data = none ∧
      get_payload data = .error (.keyError k) ∧
      lambda_handler jsonLoads env kms smtp event = (.error (.keyError k), []) := by
  cases he : List.lookup "email" data with
  | none =>
    exact ⟨"email", Or.inl rfl, he, by simp [get_payload, dictGet, he],
      by simp [lambda_handler, hdec, get_payload, dictGet, he]⟩
  | some ve =>
    cases hdd : List.lookup "description" data with
    | none =>
      exact ⟨"description", Or.inr (Or.inl rfl), hdd,
        by simp [get_payload, dictGet, he, hdd],
        by simp [lambda_handler, hdec, get_payload, dictGet, he, hdd]⟩
    | some vd =>
      cases hs : List.lookup "simulation" data with
      | none =>
        exact ⟨"simulation", Or.inr (Or.inr rfl), hs,
          by simp [get_payload, dictGet, he, hdd, hs],
          by simp [lambda_handler, hdec, get_payload, dictGet, he, hdd, hs]⟩
      | some vs =>
        rcases hmiss with hm | hm | hm
        · rw [he] at hm; exact absurd hm (by simp)
        · rw [hdd] at hm; exact absurd hm (by simp)
        · rw [hs] at hm; exact absurd hm (by simp)

/-- C3: when decoding, payload extraction, configuration resolution,
composition and the transport send all succeed, the handler returns status
200 with exactly the JSON content-type and wildcard CORS headers and the
body `\x7b"message": "Success"\x7d`. -/
theorem c3_success_response (jsonLoads : JsonLoads) (env : EnvMap) (kms : KmsOracle)
    (smtp : SmtpOracle) (event : Event) (data : JsonObj) (payload : Payload)
    (config : Config) (evC : List Ev) (message : Message) (evS : List Ev)
    (h1 : jsonLoads (event.body.getD "\x7b\x7d") = .ok data)
    (h2 : get_payload data = .ok payload)
    (h3 : get_config_from_env env kms = (.ok config, evC))
    (h4 : make_message payload config = .ok message)
    (h5 : send_message smtp message config = (.ok (), evS)) :
    lambda_handler jsonLoads env kms smtp event =
      (.ok { statusCode := 200
             headers := [("Content-Type", "application/json"),
               ("Access-Control-Allow-Origin", "*")]
             body := "\x7b\"message\": \"Success\"\x7d" }, evC ++ evS) := by
  have hbody : pyJsonDumpsMessage "Success" = "\x7b\"message\": \"Success\"\x7d" := by decide
  simp [lambda_handler, h1, h2, h3, h4, h5, hbody]

/-- C5: the handler catches nothing — each stage's failure propagates
unchanged out of `lambda_handler` (conjuncts one to five, one per stage,
with the trace showing how far execution got), and consequently every
normally returned response has status 200 (last conjunct): the handler
itself never produces a 500. -/
theorem c5_failures_propagate_uncaught (jsonLoads : JsonLoads) (env : EnvMap)
    (kms : KmsOracle) (smtp : SmtpOracle) (event : Event) :
    (∀ e, jsonLoads (event.body.getD "\x7b\x7d") = .error e →
      lambda_handler jsonLoads env kms smtp event = (.error e, [])) ∧
    (∀ data e, jsonLoads (event.body.getD "\x7b\x7d") = .ok data →
      get_payload data = .error e →
      lambda_handler jsonLoads env kms smtp event = (.error e, [])) ∧
    (∀ data payload e evC, jsonLoads (event.body.getD "\x7b\x7d") = .ok data →
      get_payload data = .ok payload →
      get_config_from_env env kms = (.error e, evC) →
      lambda_handler jsonLoads env kms smtp event = (.error e, evC)) ∧
    (∀ data payload config evC e, jsonLoads (event.body.getD "\x7b\x7d") = .ok data →
      get_payload data = .ok payload →
      get_config_from_env env kms = (.ok config, evC) →
      make_message payload config = .error e →
      lambda_handler jsonLoads env kms smtp event = (.error e, evC)) ∧
    (∀ data payload config evC message e evS,
      jsonLoads (event.body.getD "\x7b\x7d") = .ok data →
      get_payload data = .ok payload →
      get_config_from_env env kms = (.ok config, evC) →
      make_message payload config = .ok message →
      send_message smtp message config = (.error e, evS) →
      lambda_handler jsonLoads env kms smtp event = (.error e, evC ++ evS)) ∧
    (∀ r evT, lambda_handler jsonLoads env kms smtp event = (.ok r, evT) →
      r.statusCode = 200) := by
  refine ⟨?_, ?_, ?_, ?_, ?_, ?_⟩
  · intro e h1
    simp [lambda_handler, h1]
  · intro data e h1 h2
    simp [lambda_handler, h1, h2]
  · intro data payload e evC h1 h2 h3
    simp [lambda_handler, h1, h2, h3]
  · intro data payload config evC e h1 h2 h3 h4
    simp [lambda_handler, h1, h2, h3, h4]
  · intro data payload config evC message e evS h1 h2 h3 h4 h5
    simp [lambda_handler, h1, h2, h3, h4, h5]
  · intro r evT h
    unfold lambda_handler at h
    repeat' split at h
    all_goals try simp_all
    all_goals obtain ⟨h1, h2⟩ := h
    all_goals rw [← h1]

/-- C8: configuration resolution is deterministic in the environment and
decryption oracle — two resolutions under an unchanged environment yield
field-for-field identical `Config` values. -/
theorem c8_config_resolution_idempotent (env : EnvMap) (kms : KmsOracle)
    (c1 c2 : Config)
    (h1 : (get_config_from_env env kms).1 = .ok c1)
    (h2 : (get_config_from_env env kms).1 = .ok c2) :
    c1.get_smtp_host = c2.get_smtp_host ∧
    c1.get_smtp_port = c2.get_smtp_port ∧
    c1.get_smtp_user = c2.get_smtp_user ∧
    c1.get_smtp_pass = c2.get_smtp_pass ∧
    c1.get_destination = c2.get_destination := by
  rw [h1] at h2
  cases h2
  exact ⟨rfl, rfl, rfl, rfl, rfl⟩

/-- C9: the SMTP connection is scoped to the single `send_message` call.
Every connection event targets the resolved host and port; if the
constructor's connect succeeds, the trace ends with the release event and
contains exactly one release — whatever the TLS upgrade, authentication or
transmission outcome — and if the connect itself fails no session exists
and nothing is held. -/
theorem c9_smtp_connection_scoped (o : SmtpOracle) (message : Message) (config : Config) :
    (∀ h p, Ev.smtpConnect h p ∈ (send_message o message config).2 →
      h = config.get_smtp_host ∧ p = config.get_smtp_port) ∧
    ((o.connect config.get_smtp_host config.get_smtp_port).isOk = true →
      (send_message o message config).2.getLast? = some Ev.smtpClose) ∧
    ((send_message o message config).2.countP (fun ev => ev = Ev.smtpClose) =
      if (o.connect config.get_smtp_host config.get_smtp_port).isOk then 1 else 0) ∧
    ((o.connect config.get_smtp_host config.get_smtp_port).isOk = false →
      (send_message o message config).2 = []) := by
  rcases hc : o.connect config.get_smtp_host config.get_smtp_port with e | u <;>
  rcases hs : o.starttls with e2 | u2 <;>
  rcases hl : o.login config.get_smtp_user config.get_smtp_pass with e3 | u3 <;>
  rcases hsend : o.send message with e4 | u4 <;>
  refine ⟨?_, ?_, ?_, ?_⟩ <;>
  simp [send_message, hc, hs, hl, hsend, Except.isOk, Except.toBool, List.getLast?,
    List.countP, List.countP.go]

/-- `make_message` always succeeds, with the composed message. -/
theorem make_message_eq (p : Payload) (c : Config) :
    make_message p c = .ok (composedMessage p c) := by
  unfold make_message composedMessage
  rw [formatBody_eq p]
  rfl

/-- The trace of SMTP calls made by `send_message` does not depend on the
message contents (only the send result can). -/
theorem send_message_trace_eq (o : SmtpOracle) (m1 m2 : Message) (c : Config) :
    (send_message o m1 c).2 = (send_message o m2 c).2 := by
  rcases hc : o.connect c.get_smtp_host c.get_smtp_port with e | u <;>
  rcases hs : o.starttls with e2 | u2 <;>
  rcases hl : o.login c.get_smtp_user c.get_smtp_pass with e3 | u3 <;>
  rcases h1 : o.send m1 with e4 | u4 <;>
  rcases h2 : o.send m2 with e5 | u5 <;>
  simp [send_message, hc, hs, hl, h1, h2]

/-- C7: Payload and Configuration are independent.  First conjunct: two
invocations that differ only in their request bodies (both decoding to a
valid payload) make identical external calls up to the send result — in
particular the same KMS decryptions and the same SMTP connect/login, so the
request data never influences configuration resolution.  Second conjunct:
`get_payload` is determined by the three payload keys of the decoded body
alone — the environment does not appear, so configuration can never
influence payload parsing. -/
theorem c7_payload_config_independent :
    (∀ (jsonLoads : JsonLoads) (env : EnvMap) (kms : KmsOracle) (smtp : SmtpOracle)
      (ev1 ev2 : Event) (d1 d2 : JsonObj) (p1 p2 : Payload),
      jsonLoads (ev1.body.getD "\x7b\x7d") = .ok d1 → get_payload d1 = .ok p1 →
      jsonLoads (ev2.body.getD "\x7b\x7d") = .ok d2 → get_payload d2 = .ok p2 →
      (lambda_handler jsonLoads env kms smtp ev1).2 =
        (lambda_handler jsonLoads env kms smtp ev2).2) ∧
    (∀ d1 d2 : JsonObj,
      List.lookup "email" d1 = List.lookup "email" d2 →
      List.lookup "description" d1 = List.lookup "description" d2 →
      List.lookup "simulation" d1 = List.lookup "simulation" d2 →
      get_payload d1 = get_payload d2) := by
  constructor
  · intro jl env kms smtp ev1 ev2 d1 d2 p1 p2 h1 h2 h3 h4
    rcases hC : get_config_from_env env kms with ⟨cr, evC⟩
    cases cr with
    | error e => simp [lambda_handler, h1, h2, h3, h4, hC]
    | ok config =>
      have hT := send_message_trace_eq smtp (composedMessage p1 config)
        (composedMessage p2 config) config
      rcases hS1 : send_message smtp (composedMessage p1 config) config with ⟨sr1, evS1⟩
      rcases hS2 : send_message smtp (composedMessage p2 config) config with ⟨sr2, evS2⟩
      rw [hS1, hS2] at hT
      simp at hT
      cases sr1 <;> cases sr2 <;>
        simp [lambda_handler, h1, h2, h3, h4, hC, make_message_eq, hS1, hS2, hT]
  · intro d1 d2 he hd hs
    unfold get_payload dictGet
    rw [he, hd, hs]

/-- When configuration resolution succeeds, each `Config` field is exactly
the corresponding decrypted environment value, the port after Python
`int(...)`. -/
theorem gcfe_ok_fields (env : EnvMap) (kms : KmsOracle) (c : Config) (evC : List Ev)
    (h : get_config_from_env env kms = (.ok c, evC)) :
    (get_env_var_decrypt env kms "SMTP_HOST").1 = .ok c.get_smtp_host ∧
    (∃ s, (get_env_var_decrypt env kms "SMTP_PORT").1 = .ok s ∧
      pyInt s = .ok c.get_smtp_port) ∧
    (get_env_var_decrypt env kms "SMTP_USER").1 = .ok c.get_smtp_user ∧
    (get_env_var_decrypt env kms "SMTP_PASSWORD").1 = .ok c.get_smtp_pass ∧
    (get_env_var_decrypt env kms "DESTINATION").1 = .ok c.get_destination := by
  unfold get_config_from_env at h
  repeat' split at h
  all_goals try simp_all [Config.get_smtp_host, Config.get_smtp_port, Config.get_smtp_user,
    Config.get_smtp_pass, Config.get_destination]
  all_goals obtain ⟨h1, h2⟩ := h
  all_goals rw [← h1]
  all_goals simp

/-- `get_env_var_decrypt` only ever calls the KMS service: every event it
records is a decryption. -/
theorem gevd_events_kms (env : EnvMap) (kms : KmsOracle) (name : String) :
    ∀ ev ∈ (get_env_var_decrypt env kms name).2, ∃ blob ctx, ev = Ev.kmsDecrypt blob ctx := by
  unfold get_env_var_decrypt
  repeat' split
  all_goals intro ev hev
  all_goals simp_all

/-- C4: every configuration field is resolved by base64-decoding the raw
environment value and passing the result to the KMS decrypt call under an
encryption context binding it to `AWS_LAMBDA_FUNCTION_NAME`, the decrypted
plaintext (UTF-8) becoming the value (first conjunct, with the recorded KMS
call); resolution fails when the variable is absent (second conjunct);
a successful resolution consists of exactly the five decrypted values
(third conjunct); and any decryption failure, or any absent variable,
makes `get_config_from_env` fail (fourth and fifth conjuncts). -/
theorem c4_config_resolved_by_decryption (env : EnvMap) (kms : KmsOracle) :
    (∀ name enc blob fn, env name = some enc → b64decode enc = .ok blob →
      env "AWS_LAMBDA_FUNCTION_NAME" = some fn →
      get_env_var_decrypt env kms name =
        ((kms blob [("LambdaFunctionName", fn)]).bind utf8Decode,
          [Ev.kmsDecrypt blob [("LambdaFunctionName", fn)]])) ∧
    (∀ name, env name = none →
      get_env_var_decrypt env kms name = (.error (.keyError name), [])) ∧
    (∀ c evC, get_config_from_env env kms = (.ok c, evC) →
      (get_env_var_decrypt env kms "SMTP_HOST").1 = .ok c.get_smtp_host ∧
      (∃ s, (get_env_var_decrypt env kms "SMTP_PORT").1 = .ok s ∧
        pyInt s = .ok c.get_smtp_port) ∧
      (get_env_var_decrypt env kms "SMTP_USER").1 = .ok c.get_smtp_user ∧
      (get_env_var_decrypt env kms "SMTP_PASSWORD").1 = .ok c.get_smtp_pass ∧
      (get_env_var_decrypt env kms "DESTINATION").1 = .ok c.get_destination) ∧
    (∀ name, name ∈ ["SMTP_HOST", "SMTP_PORT", "SMTP_USER", "SMTP_PASSWORD", "DESTINATION"] →
      (∃ e, (get_env_var_decrypt env kms name).1 = .error e) →
      ∃ e, (get_config_from_env env kms).1 = .error e) ∧
    (∀ name, name ∈ ["SMTP_HOST", "SMTP_PORT", "SMTP_USER", "SMTP_PASSWORD", "DESTINATION"] →
      env name = none →
      ∃ e, (get_config_from_env env kms).1 = .error e) := by
  have henvdec : ∀ name, env name = none →
      get_env_var_decrypt env kms name = (.error (.keyError name), []) := by
    intro name h
    unfold get_env_var_decrypt
    rw [h]
  have herr : ∀ name,
      name ∈ ["SMTP_HOST", "SMTP_PORT", "SMTP_USER", "SMTP_PASSWORD", "DESTINATION"] →
      (∃ e, (get_env_var_decrypt env kms name).1 = .error e) →
      ∃ e, (get_config_from_env env kms).1 = .error e := by
    intro name hmem ⟨e, he⟩
    rcases hC : get_config_from_env env kms with ⟨cr, evc⟩
    cases cr with
    | error e2 => exact ⟨e2, by simp [hC]⟩
    | ok c =>
      exfalso
      have hf := gcfe_ok_fields env kms c evc hC
      simp at hmem
      rcases hmem with h | h | h | h | h <;> subst h
      · rw [hf.1] at he
        exact absurd he (by simp)
      · obtain ⟨s, hs, -⟩ := hf.2.1
        rw [hs] at he
        exact absurd he (by simp)
      · rw [hf.2.2.1] at he
        exact absurd he (by simp)
      · rw [hf.2.2.2.1] at he
        exact absurd he (by simp)
      · rw [hf.2.2.2.2] at he
        exact absurd he (by simp)
  refine ⟨?_, henvdec, fun c evC h => gcfe_ok_fields env kms c evC h, herr, ?_⟩
  · intro name enc blob fn h1 h2 h3
    unfold get_env_var_decrypt
    rw [h1]
    dsimp only
    rw [h2]
    dsimp only
    rw [h3]
    dsimp only
    cases kms blob [("LambdaFunctionName", fn)] <;> rfl
  · intro name hmem h
    exact herr name hmem ⟨.keyError name, by rw [henvdec name h]⟩

/-- C10: the SMTP port is numerically parsed.  If the host resolves but the
decrypted `SMTP_PORT` plaintext is not a valid integer literal, resolution
fails with exactly the conversion error, the handler propagates it, and the
trace up to that point contains only KMS decryptions — no transport call
(first conjunct).  When resolution succeeds, the `Config` port (an `Int` by
construction) is the `int(...)` conversion of the decrypted plaintext, while
the other fields stay strings as typed in `Config` (second conjunct). -/
theorem c10_port_numerically_parsed (env : EnvMap) (kms : KmsOracle) :
    (∀ h evH s evP e, get_env_var_decrypt env kms "SMTP_HOST" = (.ok h, evH) →
      get_env_var_decrypt env kms "SMTP_PORT" = (.ok s, evP) →
      pyInt s = .error e →
      get_config_from_env env kms = (.error e, evH ++ evP) ∧
      (∀ (jl : JsonLoads) (smtp : SmtpOracle) (event : Event) (data : JsonObj)
        (payload : Payload),
        jl (event.body.getD "\x7b\x7d") = .ok data →
        get_payload data = .ok payload →
        lambda_handler jl env kms smtp event = (.error e, evH ++ evP)) ∧
      (∀ ev ∈ evH ++ evP, ∃ blob ctx, ev = Ev.kmsDecrypt blob ctx)) ∧
    (∀ c evC, get_config_from_env env kms = (.ok c, evC) →
      ∃ s, (get_env_var_decrypt env kms "SMTP_PORT").1 = .ok s ∧
        pyInt s = .ok c.get_smtp_port) := by
  constructor
  · intro h evH s evP e hH hP hpe
    have hcfg : get_config_from_env env kms = (.error e, evH ++ evP) := by
      unfold get_config_from_env
      rw [hH]
      dsimp only
      rw [hP]
      dsimp only
      rw [hpe]
    refine ⟨hcfg, ?_, ?_⟩
    · intro jl smtp event data payload h1 h2
      simp [lambda_handler, h1, h2, hcfg]
    · intro ev hev
      rcases List.mem_append.mp hev with hm | hm
      · have := gevd_events_kms env kms "SMTP_HOST"
        rw [hH] at this
        exact this ev hm
      · have := gevd_events_kms env kms "SMTP_PORT"
        rw [hP] at this
        exact this ev hm
  · intro c evC h
    exact (gcfe_ok_fields env kms c evC h).2.1

/-- Witness for C2: the event without a `body` field decodes to the empty
object and the handler stops with `KeyError: email` and an empty trace. -/
theorem c2_missing_key_short_circuits_witness :
    ∃ k, (k = "email" ∨ k = "description" ∨ k = "simulation") ∧
      List.lookup k ([] : JsonObj) = none ∧
      get_payload [] = .error (.keyError k) ∧
      lambda_handler jlW envW kmsW smtpW { body := none } = (.error (.keyError k), []) :=
  c2_missing_key_short_circuits jlW envW kmsW smtpW { body := none } []
    (by decide) (Or.inl (by decide))

/-- Witness for C3: the end-to-end success scenario on concrete inputs. -/
theorem c3_success_response_witness :
    lambda_handler jlW envW kmsW smtpW { body := some bodyW } =
      (.ok { statusCode := 200
             headers := [("Content-Type", "application/json"),
               ("Access-Control-Allow-Origin", "*")]
             body := "\x7b\"message\": \"Success\"\x7d" }, evCW ++ evSW) :=
  c3_success_response jlW envW kmsW smtpW { body := some bodyW } dataW payloadW
    configW evCW messageW evSW (by decide) (by decide) (by decide)
    (make_message_eq payloadW configW) (by decide)

/-- Witness for C4: resolving `SMTP_HOST` under `envW` is exactly the KMS
decryption of its base64-decoded value under the function-name context. -/
theorem c4_config_resolved_by_decryption_witness :
    get_env_var_decrypt envW kmsW "SMTP_HOST" =
      ((kmsW ("smtp.example.com".data.map Char.toNat)
          [("LambdaFunctionName", "montrealHelp")]).bind utf8Decode,
        [Ev.kmsDecrypt ("smtp.example.com".data.map Char.toNat)
          [("LambdaFunctionName", "montrealHelp")]]) :=
  (c4_config_resolved_by_decryption envW kmsW).1 "SMTP_HOST"
    "c210cC5leGFtcGxlLmNvbQ==" ("smtp.example.com".data.map Char.toNat)
    "montrealHelp" (by decide) (by decide) (by decide)

/-- Witness for C5: a decode failure propagates uncaught with an empty
trace. -/
theorem c5_failures_propagate_uncaught_witness :
    lambda_handler jlFailW envW kmsW smtpW { body := none } =
      (.error (.jsonError "Expecting value"), []) :=
  (c5_failures_propagate_uncaught jlFailW envW kmsW smtpW { body := none }).1
    (.jsonError "Expecting value") (by decide)

/-- Witness for C7: two invocations differing only in their request bodies
make identical external calls. -/
theorem c7_payload_config_independent_witness :
    (lambda_handler jlW envW kmsW smtpW { body := some bodyW }).2 =
      (lambda_handler jlW envW kmsW smtpW { body := some bodyW2 }).2 :=
  c7_payload_config_independent.1 jlW envW kmsW smtpW { body := some bodyW }
    { body := some bodyW2 } dataW dataW2 payloadW payloadW2
    (by decide) (by decide) (by decide) (by decide)

/-- Witness for C8: `envW` resolves successfully, so the idempotence
hypotheses are satisfiable. -/
theorem c8_config_resolution_idempotent_witness :
    configW.get_smtp_host = configW.get_smtp_host ∧
    configW.get_smtp_port = configW.get_smtp_port ∧
    configW.get_smtp_user = configW.get_smtp_user ∧
    configW.get_smtp_pass = configW.get_smtp_pass ∧
    configW.get_destination = configW.get_destination :=
  c8_config_resolution_idempotent envW kmsW configW configW (by decide) (by decide)

/-- Witness for C9: under a successful connect the trace of a send ends with
the release of the connection. -/
theorem c9_smtp_connection_scoped_witness :
    (send_message smtpW messageW configW).2.getLast? = some Ev.smtpClose :=
  (c9_smtp_connection_scoped smtpW messageW configW).2.1 (by decide)

/-- Witness for C10: a port plaintext of `nope` makes resolution fail with
the conversion error after exactly two KMS calls and no SMTP call. -/
theorem c10_port_numerically_parsed_witness :
    get_config_from_env envBadPortW kmsW =
      (.error (.valueError "invalid literal for int() with base 10: nope"),
        [Ev.kmsDecrypt ("smtp.example.com".data.map Char.toNat) ctxW] ++
          [Ev.kmsDecrypt ("nope".data.map Char.toNat) ctxW]) :=
  ((c10_port_numerically_parsed envBadPortW kmsW).1 "smtp.example.com"
    [Ev.kmsDecrypt ("smtp.example.com".data.map Char.toNat) ctxW] "nope"
    [Ev.kmsDecrypt ("nope".data.map Char.toNat) ctxW]
    (.valueError "invalid literal for int() with base 10: nope")
    (by decide) (by decide) (by decide)).1
